import Mathlib

/-!
GO-Opentelemetry: the HTTP server of `main.go`.

A shallow embedding of `main.go`: the three request handlers, the telemetry
wrappers built in `main`, the two provider initialisers and `main` itself,
together with the parts of the Go standard library whose results the handlers
depend on (`strconv.Atoi`, the `%d` verb of `fmt`, `url.Values.Get`,
`http.Error`, the implicit header of `http.ResponseWriter`, `log.Fatalf`).

Go strings are byte sequences, so they are modelled as lists of bytes.
Go `int` is the 64-bit signed integer of a 64-bit platform: values are carried
as `Int` and every arithmetic result is wrapped into `[-2^63, 2^63)`.
-/

namespace GoOtel

set_option maxRecDepth 100000

/-! ## Bytes and strings -/

/-- A Go `byte`. -/
abbrev Byte := Fin 256

/-- The conversion `byte(n)` of Go: truncation to eight bits. -/
def toByte (n : Nat) : Byte := ⟨n % 256, Nat.mod_lt n (by decide)⟩

/-- A Go `string`: an immutable sequence of bytes. -/
abbrev GoString := List Byte

/-- The bytes of an ASCII string literal of the program text. -/
def str (s : String) : GoString :=
  s.toList.map (fun c => toByte c.toNat)

/-! ## Machine integers -/

/-- Conversion of a mathematical integer to Go `int` / `int64`
(two's-complement wrap-around into `[-2^63, 2^63)`). -/
def wrapInt64 (x : Int) : Int :=
  (x + 2 ^ 63) % 2 ^ 64 - 2 ^ 63

/-- Conversion of a natural number to Go `uint64`. -/
def wrapUint64 (x : Nat) : Nat :=
  x % 2 ^ 64

/-- The values of Go `int` on a 64-bit platform. -/
def InInt64 (x : Int) : Prop :=
  -(2 ^ 63) ≤ x ∧ x ≤ 2 ^ 63 - 1

instance (x : Int) : Decidable (InInt64 x) := by
  unfold InInt64; infer_instance

/-! ## `strconv` -/

/-- The two error causes of `strconv`: `ErrSyntax` and `ErrRange`. -/
inductive NumError where
  | ErrSyntax
  | ErrRange
  deriving DecidableEq, Repr

/-- The loop of the fast path of `strconv.Atoi`:
`for _, ch := range []byte(s) { ch -= '0'; if ch > 9 { return 0, syntaxError }; n = n*10 + int(ch) }`.
`none` is the early return with a syntax error. -/
def atoiFastLoop : GoString → Int → Option Int
  | [], n => some n
  | c :: cs, n =>
    let ch := (c.val + 256 - 48) % 256
    if ch > 9 then none
    else atoiFastLoop cs (wrapInt64 (n * 10 + (ch : Int)))

/-- `lower(c)` of `strconv`: `c | ('x' - 'X')`. -/
def lower (c : Nat) : Nat := c ||| 32

/-- The digit loop of `strconv.ParseUint(s, 10, 0)`; `n` is a `uint64`,
`cutoff = maxUint64/10 + 1`, `maxVal = 1<<64 - 1`. The underscore case of the
switch needs `base == 0` and cannot be taken. -/
def parseUintLoop : GoString → Nat → Nat × Option NumError
  | [], n => (n, none)
  | c :: cs, n =>
    let d? : Option Nat :=
      if 48 ≤ c.val ∧ c.val ≤ 57 then some (c.val - 48)
      else if 97 ≤ lower c.val ∧ lower c.val ≤ 122 then some (lower c.val - 97 + 10)
      else none
    match d? with
    | none => (0, some NumError.ErrSyntax)
    | some d =>
      if d ≥ 10 then (0, some NumError.ErrSyntax)
      else if n ≥ (2 ^ 64 - 1) / 10 + 1 then (2 ^ 64 - 1, some NumError.ErrRange)
      else
        let n10 := wrapUint64 (n * 10)
        let n1 := wrapUint64 (n10 + d)
        if n1 < n10 ∨ n1 > 2 ^ 64 - 1 then (2 ^ 64 - 1, some NumError.ErrRange)
        else parseUintLoop cs n1

/-- `strconv.ParseUint(s, 10, 0)` on a 64-bit platform. -/
def ParseUint (s : GoString) : Nat × Option NumError :=
  if s = [] then (0, some NumError.ErrSyntax)
  else parseUintLoop s 0

/-- `strconv.ParseInt(s, 10, 0)` on a 64-bit platform: the leading sign is
picked off, `ParseUint` converts the rest, and the range is checked against
`cutoff = 1 << 63`. An error of `ParseUint` other than `ErrRange` is returned
as it is; with `ErrRange` the value is `maxVal` and a range check fires. -/
def ParseInt (s : GoString) : Int × Option NumError :=
  match s with
  | [] => (0, some NumError.ErrSyntax)
  | c :: cs =>
    let neg : Bool := c.val = 45
    let s1 : GoString := if c.val = 43 then cs else if c.val = 45 then cs else c :: cs
    let (un, err) := ParseUint s1
    if err ≠ none ∧ err ≠ some NumError.ErrRange then (0, err)
    else
      let cutoff : Nat := 2 ^ 63
      if !neg ∧ un ≥ cutoff then ((cutoff : Int) - 1, some NumError.ErrRange)
      else if neg ∧ un > cutoff then (-(cutoff : Int), some NumError.ErrRange)
      else
        let n := wrapInt64 un
        (if neg then wrapInt64 (-n) else n, none)

/-- `strconv.Atoi(s)` on a 64-bit platform: the fast path for strings of
fewer than 19 bytes, `ParseInt(s, 10, 0)` otherwise. The result is the pair
`(int, error)`, the error `none` standing for `nil`. -/
def Atoi (s : GoString) : Int × Option NumError :=
  match s with
  | [] =>
    let (i64, err) := ParseInt s
    (wrapInt64 i64, err)
  | c :: cs =>
    if s.length < 19 then
      let signed : Bool := c.val = 45 ∨ c.val = 43
      let s1 : GoString := if signed then cs else s
      if signed ∧ s1.length < 1 then (0, some NumError.ErrSyntax)
      else
        match atoiFastLoop s1 0 with
        | none => (0, some NumError.ErrSyntax)
        | some n => (if c.val = 45 then wrapInt64 (-n) else n, none)
    else
      let (i64, err) := ParseInt s
      (wrapInt64 i64, err)

/-! ## `fmt`: the `%d` verb -/

/-- The digit loop of `fmt.fmtInteger` in base 10, writing the buffer from its
end: `for u >= 10 { i--; next := u / 10; buf[i] = byte('0' + u - next*10); u = next }`
followed by `i--; buf[i] = digits[u]`. The first argument bounds the number of
iterations. -/
def fmtLoop : Nat → Nat → GoString → GoString
  | 0, u, buf => toByte (48 + u) :: buf
  | fuel + 1, u, buf =>
    if u ≥ 10 then
      let next := u / 10
      fmtLoop fuel next (toByte (48 + u - next * 10) :: buf)
    else toByte (48 + u) :: buf

/-- Formatting of a Go `int` with `%d` (`fmt.fmtInteger`, base 10, signed):
`negative := int64(u) < 0; if negative { u = -u }`, then the digits of the
`uint64` `u` (at most 20), then the sign. -/
def fmtD (n : Int) : GoString :=
  let negative : Bool := n < 0
  let u : Nat := wrapUint64 (if negative then -n else n).toNat
  let digits := fmtLoop 20 u []
  if negative then (45 : Byte) :: digits else digits

/-! ## Decimal texts -/

/-- The byte is one of `'0'` .. `'9'`. -/
def isDigit (c : Byte) : Bool := 48 ≤ c.val && c.val ≤ 57

/-- The number written by a string of decimal digits, continuing from `n`. -/
def decVal : GoString → Nat → Nat
  | [], n => n
  | c :: cs, n => decVal cs (n * 10 + (c.val - 48))

/-- The text is an integer in decimal notation: an optional sign `+` or `-`
followed by at least one decimal digit and nothing else. -/
def IsIntegerText (s : GoString) : Bool :=
  match s with
  | [] => false
  | c :: cs =>
    if c.val = 43 ∨ c.val = 45 then !cs.isEmpty && cs.all isDigit
    else s.all isDigit

/-! ## `net/url` and `net/http` -/

/-- The type `url.Values`: the values of each key of the query, in a map. -/
abbrev Values := List (GoString × List GoString)

/-- `Values.Get`: `vs := v[key]; if len(vs) == 0 { return "" }; return vs[0]`. -/
def Values.Get (v : Values) (key : GoString) : GoString :=
  match v.lookup key with
  | none => []
  | some [] => []
  | some (x :: _) => x

/-- An `*http.Request`, as far as the program looks at it: the path the mux
routes on and the result of `r.URL.Query()`. -/
structure Request where
  path : GoString
  query : Values
  deriving DecidableEq

/-- An `http.ResponseWriter`: whether the status line has been written, the
status code, and the body written so far. Header fields are not modelled. -/
structure ResponseWriter where
  wroteHeader : Bool
  status : Nat
  body : GoString
  deriving DecidableEq

/-- The writer handed to a handler: nothing written yet. A reply whose handler
never writes the header goes out with status 200. -/
def newResponseWriter : ResponseWriter :=
  { wroteHeader := false, status := 200, body := [] }

/-- `w.WriteHeader(code)`: only the first call takes effect. -/
def ResponseWriter.WriteHeader (w : ResponseWriter) (code : Nat) : ResponseWriter :=
  if w.wroteHeader then w else { w with wroteHeader := true, status := code }

/-- `w.Write(b)`: writes the header with `http.StatusOK` when it has not been
written, then appends to the body. -/
def ResponseWriter.Write (w : ResponseWriter) (b : GoString) : ResponseWriter :=
  let w1 := if w.wroteHeader then w else w.WriteHeader 200
  { w1 with body := w1.body ++ b }

/-! ## Telemetry and program state -/

/-- A span of the trace provider: its name, the events added while it was
recording, and how many times `End` was called on it. -/
structure Span where
  name : GoString
  events : List GoString
  endCalls : Nat
  deriving DecidableEq

/-- The span no longer records: `End` has been called. -/
def Span.ended (sp : Span) : Bool := decide (0 < sp.endCalls)

/-- The calls the program makes into the response writer, the tracer, the
counter and the logger. -/
inductive Effect where
  | spanStart (id : Nat) (name : GoString)
  | spanAddEvent (id : Nat) (text : GoString)
  | spanEnd (id : Nat)
  | counterAdd (name : GoString) (incr : Int)
  | writeHeader (code : Nat)
  | write (b : GoString)
  | log (line : GoString)
  deriving DecidableEq

/-- The state a handler runs in: the writer of the request being served, the
spans started so far (a span is identified by its position), the sum of the
increments added to the counter `http_server_requests_total`, the lines
logged, and the calls made so far in the order they were made. -/
structure State where
  w : ResponseWriter
  spans : List Span
  counter : Int
  logs : List GoString
  trace : List Effect
  deriving DecidableEq

/-- Applies `f` to the span at position `id`. -/
def updateSpan (f : Span → Span) : Nat → List Span → List Span
  | _, [] => []
  | 0, sp :: sps => f sp :: sps
  | id + 1, sp :: sps => sp :: updateSpan f id sps

/-- `tracer.Start(ctx, name)`: a new recording span. -/
def tracerStart (name : GoString) (s : State) : Nat × State :=
  let id := s.spans.length
  (id, { s with spans := s.spans ++ [{ name := name, events := [], endCalls := 0 }]
                trace := s.trace ++ [Effect.spanStart id name] })

/-- `span.AddEvent(text)`: recorded unless the span has ended. -/
def spanAddEvent (id : Nat) (text : GoString) (s : State) : State :=
  { s with spans := updateSpan
              (fun sp => if sp.ended then sp else { sp with events := sp.events ++ [text] })
              id s.spans
           trace := s.trace ++ [Effect.spanAddEvent id text] }

/-- `span.End()`. -/
def spanEnd (id : Nat) (s : State) : State :=
  { s with spans := updateSpan (fun sp => { sp with endCalls := sp.endCalls + 1 }) id s.spans
           trace := s.trace ++ [Effect.spanEnd id] }

/-- The name under which `main` creates the request counter. -/
def counterName : GoString := str "http_server_requests_total"

/-- `requestCounter.Add(ctx, incr)`. -/
def counterAdd (incr : Int) (s : State) : State :=
  { s with counter := s.counter + incr
           trace := s.trace ++ [Effect.counterAdd counterName incr] }

/-- `fmt.Fprintf(w, ...)` with the formatted text `b`: one `w.Write(b)`. -/
def Fprintf (b : GoString) (s : State) : State :=
  { s with w := s.w.Write b, trace := s.trace ++ [Effect.write b] }

/-- `http.Error(w, msg, code)`: `w.WriteHeader(code); fmt.Fprintln(w, msg)`. -/
def httpError (msg : GoString) (code : Nat) (s : State) : State :=
  { s with w := (s.w.WriteHeader code).Write (msg ++ [10])
           trace := s.trace ++ [Effect.writeHeader code, Effect.write (msg ++ [10])] }

/-- `log.Println(line)` and `log.Printf` with the formatted text `line`. -/
def logPrint (line : GoString) (s : State) : State :=
  { s with logs := s.logs ++ [line], trace := s.trace ++ [Effect.log line] }

/-! ## The handlers of `main.go` -/

/-- A handler: `func(w http.ResponseWriter, r *http.Request)`. -/
abbrev Handler := Request → State → State

/-- `helloHandler`. The deferred `span.End()` runs when the function returns. -/
def helloHandler : Handler := fun _r s =>
  let (span, s) := tracerStart (str "helloHandler") s
  let s := Fprintf (str "Hello, World!") s
  let s := logPrint (str "Handled /hello request") s
  let s := spanAddEvent span (str "Handled /hello request") s
  spanEnd span s

/-- `sumHandler`. The deferred `span.End()` runs at both returns. -/
def sumHandler : Handler := fun r s =>
  let (span, s) := tracerStart (str "sumHandler") s
  let query := r.query
  let num1Str := query.Get (str "num1")
  let num2Str := query.Get (str "num2")
  let (num1, err1) := Atoi num1Str
  let (num2, err2) := Atoi num2Str
  if err1 ≠ none ∨ err2 ≠ none then
    let s := httpError (str "Invalid input") 400 s
    spanEnd span s
  else
    let result := wrapInt64 (num1 + num2)
    let s := Fprintf (str "Sum: " ++ fmtD result) s
    let line := str "Handled /sum request: " ++ fmtD num1 ++ str " + " ++ fmtD num2
      ++ str " = " ++ fmtD result
    let s := logPrint line s
    let s := spanAddEvent span line s
    spanEnd span s

/-- `subtractHandler`. The deferred `span.End()` runs at both returns. -/
def subtractHandler : Handler := fun r s =>
  let (span, s) := tracerStart (str "subtractHandler") s
  let query := r.query
  let num1Str := query.Get (str "num1")
  let num2Str := query.Get (str "num2")
  let (num1, err1) := Atoi num1Str
  let (num2, err2) := Atoi num2Str
  if err1 ≠ none ∨ err2 ≠ none then
    let s := httpError (str "Invalid input") 400 s
    spanEnd span s
  else
    let result := wrapInt64 (num1 - num2)
    let s := Fprintf (str "Subtraction: " ++ fmtD result) s
    let line := str "Handled /subtract request: " ++ fmtD num1 ++ str " - " ++ fmtD num2
      ++ str " = " ++ fmtD result
    let s := logPrint line s
    let s := spanAddEvent span line s
    spanEnd span s

/-! ## The telemetry wrappers built in `main` -/

/-- `otelhttp.NewHandler(next, operation)`, as far as the state of the model
goes: a server span named after the operation around one call of `next`. -/
def otelhttpNewHandler (next : Handler) (operation : GoString) : Handler := fun r s =>
  let (span, s) := tracerStart operation s
  let s := next r s
  spanEnd span s

/-- `helloHandlerWithTelemetry`. -/
def helloHandlerWithTelemetry : Handler :=
  otelhttpNewHandler (fun r s =>
    let s := counterAdd 1 s
    helloHandler r s) (str "helloHandler")

/-- `sumHandlerWithTelemetry`. -/
def sumHandlerWithTelemetry : Handler :=
  otelhttpNewHandler (fun r s =>
    let s := counterAdd 1 s
    sumHandler r s) (str "sumHandler")

/-- `subtractHandlerWithTelemetry`. -/
def subtractHandlerWithTelemetry : Handler :=
  otelhttpNewHandler (fun r s =>
    let s := counterAdd 1 s
    subtractHandler r s) (str "subtractHandler")

/-- The three handlers `main` registers. -/
inductive HandlerId where
  | hello
  | sum
  | subtract
  deriving DecidableEq, Repr

/-- The handler value behind each registration. -/
def HandlerId.handler : HandlerId → Handler
  | .hello => helloHandlerWithTelemetry
  | .sum => sumHandlerWithTelemetry
  | .subtract => subtractHandlerWithTelemetry

/-- The handler without its wrapper. -/
def HandlerId.inner : HandlerId → Handler
  | .hello => helloHandler
  | .sum => sumHandler
  | .subtract => subtractHandler

/-- The registrations of `main`, in order: `http.Handle(pattern, handler)`. -/
def registrations : List (GoString × HandlerId) :=
  [(str "/hello", HandlerId.hello), (str "/sum", HandlerId.sum),
   (str "/subtract", HandlerId.subtract)]

/-- The handler the mux picks for a path: the three patterns have no trailing
slash and match their path only. -/
def route (path : GoString) : Option HandlerId :=
  registrations.lookup path

/-- One request served: the mux hands it, with a new writer, to the handler
registered for its path. A request whose path matches no pattern reaches no
handler of the program (the mux answers it on its own) and leaves the state
as it is. -/
def serveHTTP (r : Request) (s : State) : State :=
  match route r.path with
  | some h => h.handler r { s with w := newResponseWriter }
  | none => s

/-- A sequence of requests served one after the other. -/
def serveAll : List Request → State → State
  | [], s => s
  | r :: rs, s => serveAll rs (serveHTTP r s)

/-! ## `main` -/

/-- What the environment answers to `main`: the error (or `none` for `nil`)
of `otlptrace.New`, of `otlpmetricgrpc.New`, of `meter.Int64Counter` and of
`http.ListenAndServe`, the last one given when the listener stops. -/
structure Env where
  traceExporter : Option GoString
  metricExporter : Option GoString
  counter : Option GoString
  listen : Option GoString
  deriving DecidableEq

/-- The two telemetry providers. -/
inductive Provider where
  | tracer
  | meter
  deriving DecidableEq, Repr

/-- A provider handle: `*sdktrace.TracerProvider` or `*sdkmetric.MeterProvider`,
with the service name of its resource. -/
structure ProviderHandle where
  kind : Provider
  serviceName : GoString
  deriving DecidableEq

/-- What the process does, as seen from outside. -/
inductive ProcEvent where
  | setTracerProvider
  | log (line : GoString)
  | print (line : GoString)
  | handle (pattern : GoString) (h : HandlerId)
  | listenAndServe (addr : GoString)
  | shutdown (p : Provider)
  | exit (code : Nat)
  deriving DecidableEq

/-- The process while `main` runs: what it has done so far, the calls `main`
has deferred (last deferred first), and its exit status once it has ended. -/
structure Proc where
  events : List ProcEvent
  deferred : List ProcEvent
  exited : Option Nat
  deriving DecidableEq

/-- Records one event. -/
def Proc.emit (p : Proc) (e : ProcEvent) : Proc :=
  { p with events := p.events ++ [e] }

/-- A `defer` statement of `main`. -/
def Proc.defer (p : Proc) (e : ProcEvent) : Proc :=
  { p with deferred := e :: p.deferred }

/-- `os.Exit(code)`: the program terminates immediately; deferred functions
are not run. -/
def osExit (code : Nat) (p : Proc) : Proc :=
  { p with events := p.events ++ [ProcEvent.exit code], exited := some code }

/-- `log.Fatalf`: `Printf` followed by `os.Exit(1)`. -/
def logFatalf (line : GoString) (p : Proc) : Proc :=
  osExit 1 (p.emit (ProcEvent.log line))

/-- Runs deferred calls, the last deferred first. -/
def runDeferred : List ProcEvent → Proc → Proc
  | [], p => p
  | e :: es, p => runDeferred es (p.emit e)

/-- `main` returns: its deferred calls run, then the program exits with
status 0. -/
def returnFromMain (p : Proc) : Proc :=
  osExit 0 (runDeferred p.deferred { p with deferred := [] })

/-- `initTracer`: `(nil, err)` when `otlptrace.New` fails; otherwise the
provider is built, installed with `otel.SetTracerProvider` and returned. -/
def initTracer (env : Env) (p : Proc) : (Option ProviderHandle × Option GoString) × Proc :=
  match env.traceExporter with
  | some err => ((none, some err), p)
  | none =>
    let tp : ProviderHandle := { kind := Provider.tracer, serviceName := str "http-server" }
    ((some tp, none), p.emit ProcEvent.setTracerProvider)

/-- `initMeter`: `(nil, err)` when `otlpmetricgrpc.New` fails; otherwise the
provider is built and returned. -/
def initMeter (env : Env) (p : Proc) : (Option ProviderHandle × Option GoString) × Proc :=
  match env.metricExporter with
  | some err => ((none, some err), p)
  | none =>
    let mp : ProviderHandle := { kind := Provider.meter, serviceName := str "http-server" }
    ((some mp, none), p)

/-- `main`. -/
def main (env : Env) : Proc :=
  let p : Proc := { events := [], deferred := [], exited := none }
  match initTracer env p with
  | ((_, some err), p) => logFatalf (str "failed to initialize tracer: " ++ err) p
  | ((_, none), p) =>
    let p := p.defer (ProcEvent.shutdown Provider.tracer)
    match initMeter env p with
    | ((_, some err), p) => logFatalf (str "failed to initialize meter: " ++ err) p
    | ((_, none), p) =>
      let p := p.defer (ProcEvent.shutdown Provider.meter)
      match env.counter with
      | some err => logFatalf (str "failed to create request counter: " ++ err) p
      | none =>
        let p := p.emit (ProcEvent.handle (str "/hello") HandlerId.hello)
        let p := p.emit (ProcEvent.handle (str "/sum") HandlerId.sum)
        let p := p.emit (ProcEvent.handle (str "/subtract") HandlerId.subtract)
        let p := p.emit (ProcEvent.print (str "Server is listening on port 8080...\n"))
        let p := p.emit (ProcEvent.listenAndServe (str ":8080"))
        match env.listen with
        | some err => logFatalf (str "Could not start server: " ++ err ++ str "\n") p
        | none => returnFromMain p

/-! ## Texts the specification speaks of -/

/-- The decimal notation of an integer: a minus sign for a negative number,
then the digits of its absolute value without leading zeros. -/
def decimal (n : Int) : GoString := str (toString n)

/-- The text of the event and of the log line of a successful `/sum` with
operands `a`, `b` and result `res`. -/
def sumLine (a b res : Int) : GoString :=
  str "Handled /sum request: " ++ fmtD a ++ str " + " ++ fmtD b ++ str " = " ++ fmtD res

/-- The text of the event and of the log line of a successful `/subtract`
with operands `a`, `b` and result `res`. -/
def subtractLine (a b res : Int) : GoString :=
  str "Handled /subtract request: " ++ fmtD a ++ str " - " ++ fmtD b ++ str " = " ++ fmtD res

/-- `Values.Has`: the key is set in the query. -/
def Values.Has (v : Values) (key : GoString) : Bool :=
  (v.lookup key).isSome

/-- The parameter is missing from the query, or its value is not an integer
in decimal notation. -/
def BadParam (r : Request) (key : GoString) : Prop :=
  r.query.Has key = false ∨ IsIntegerText (r.query.Get key) = false

instance (r : Request) (key : GoString) : Decidable (BadParam r key) := by
  unfold BadParam; infer_instance

/-- The name of the span a handler starts; `main` gives the same name to
`otelhttp.NewHandler` as the operation. -/
def HandlerId.spanName : HandlerId → GoString
  | .hello => str "helloHandler"
  | .sum => str "sumHandler"
  | .subtract => str "subtractHandler"

/-- The effect belongs to a handler's logic between the start and the end of
its span: a write to the response, a log line or an event of the span `id`. -/
def Effect.isLogic (id : Nat) : Effect → Bool
  | .writeHeader _ => true
  | .write _ => true
  | .log _ => true
  | .spanAddEvent i _ => decide (i = id)
  | _ => false

/-- The effect is an addition to a counter. -/
def Effect.isCounterAdd : Effect → Bool
  | .counterAdd _ _ => true
  | _ => false

/-- The process event is a `Shutdown` of a provider. -/
def ProcEvent.isShutdown : ProcEvent → Bool
  | .shutdown _ => true
  | _ => false

/-- The process event registers a route or starts the listener. -/
def ProcEvent.isServing : ProcEvent → Bool
  | .handle _ _ => true
  | .listenAndServe _ => true
  | _ => false

/-- The process event is a log line. -/
def ProcEvent.isLog : ProcEvent → Bool
  | .log _ => true
  | _ => false

/-- A state in which nothing has happened yet, with a new writer. -/
def emptyState : State :=
  { w := newResponseWriter, spans := [], counter := 0, logs := [], trace := [] }

/-- The request `GET <path>?num1=<n1>&num2=<n2>` after parsing. -/
def arithRequest (path n1 n2 : GoString) : Request :=
  { path := path, query := [(str "num1", [n1]), (str "num2", [n2])] }

/-- The request `GET <path>?num1=<n1>`, without `num2`. -/
def num1OnlyRequest (path n1 : GoString) : Request :=
  { path := path, query := [(str "num1", [n1])] }

/-- The reply with the given status and body, header written. -/
def reply (status : Nat) (body : GoString) : ResponseWriter :=
  { wroteHeader := true, status := status, body := body }

/-- A span with the given name and events on which `End` was called once. -/
def endedSpan (name : GoString) (events : List GoString) : Span :=
  { name := name, events := events, endCalls := 1 }

/-- Between the states `before` and `after` one span named `name` was started,
then only logic ran (writes to the response, log lines, events of that span),
then `End` was called on the span, once; no other span was started or ended. -/
def SpanDiscipline (name : GoString) (before after : State) : Prop :=
  ∃ (evs : List GoString) (eff : List Effect),
    after.spans = before.spans ++ [endedSpan name evs]
    ∧ after.trace = before.trace ++ Effect.spanStart before.spans.length name
        :: (eff ++ [Effect.spanEnd before.spans.length])
    ∧ eff.all (Effect.isLogic before.spans.length) = true

/-- Four requests, one to each route and one that is answered 400. -/
def sampleRequests : List Request :=
  [{ path := str "/hello", query := [] },
   arithRequest (str "/sum") (str "3") (str "4"),
   arithRequest (str "/sum") (str "abc") (str "4"),
   arithRequest (str "/subtract") (str "10") (str "4")]

/-! ## `strconv` and `fmt`: reading back what `%d` wrote -/

theorem wrapInt64_of_range {x : Int} (h : InInt64 x) : wrapInt64 x = x := by
  unfold InInt64 at h
  unfold wrapInt64
  omega

theorem le_decVal (ds : GoString) (n : Nat) : n ≤ decVal ds n := by
  induction ds generalizing n with
  | nil => simp [decVal]
  | cons c cs ih =>
    have := ih (n * 10 + (c.val - 48))
    simp only [decVal]
    omega

theorem decVal_append (a b : GoString) (n : Nat) :
    decVal (a ++ b) n = decVal b (decVal a n) := by
  induction a generalizing n with
  | nil => rfl
  | cons c cs ih => simp [decVal, ih]

theorem atoiFastLoop_digits (ds : GoString) (n : Nat)
    (hd : ds.all isDigit = true) (hb : decVal ds n < 2 ^ 63) :
    atoiFastLoop ds (n : Int) = some ((decVal ds n : Nat) : Int) := by
  induction ds generalizing n with
  | nil => simp [atoiFastLoop, decVal]
  | cons c cs ih =>
    simp only [List.all_cons, Bool.and_eq_true, isDigit, decide_eq_true_eq] at hd
    obtain ⟨⟨h1, h2⟩, hcs⟩ := hd
    simp only [decVal] at hb ⊢
    have hle := le_decVal cs (n * 10 + (c.val - 48))
    have hch : (c.val + 256 - 48) % 256 = c.val - 48 := by omega
    have hw : wrapInt64 ((n : Int) * 10 + ((c.val - 48 : Nat) : Int))
        = ((n * 10 + (c.val - 48) : Nat) : Int) := by
      rw [wrapInt64_of_range]
      · push_cast; rfl
      · unfold InInt64; omega
    simp only [atoiFastLoop, hch]
    rw [if_neg (by omega), hw]
    exact ih _ hcs hb

theorem parseUintLoop_digits (ds : GoString) (n : Nat)
    (hd : ds.all isDigit = true) (hb : decVal ds n < 2 ^ 64) :
    parseUintLoop ds n = (decVal ds n, none) := by
  induction ds generalizing n with
  | nil => simp [parseUintLoop, decVal]
  | cons c cs ih =>
    simp only [List.all_cons, Bool.and_eq_true, isDigit, decide_eq_true_eq] at hd
    obtain ⟨⟨h1, h2⟩, hcs⟩ := hd
    simp only [decVal] at hb ⊢
    have hle := le_decVal cs (n * 10 + (c.val - 48))
    have e10 : wrapUint64 (n * 10) = n * 10 := by unfold wrapUint64; omega
    have e1 : wrapUint64 (n * 10 + (c.val - 48)) = n * 10 + (c.val - 48) := by
      unfold wrapUint64; omega
    simp only [parseUintLoop, if_pos (And.intro h1 h2), e10, e1]
    rw [if_neg (by omega), if_neg (by omega), if_neg (by omega)]
    exact ih _ hcs hb

theorem toByte_val_digit (u : Nat) (h : u < 10) : (toByte (48 + u)).val = 48 + u := by
  simp only [toByte]; omega

theorem fmtLoop_spec (fuel u : Nat) (buf : GoString) (h : u < 10 ^ (fuel + 1)) :
    ∃ d ds, fmtLoop fuel u buf = (d :: ds) ++ buf ∧ (d :: ds).all isDigit = true
      ∧ decVal (d :: ds) 0 = u := by
  induction fuel generalizing u buf with
  | zero =>
    have hu : u < 10 := by simpa using h
    refine ⟨toByte (48 + u), [], by simp [fmtLoop], ?_, ?_⟩
    · simp [isDigit, toByte_val_digit u hu]; omega
    · simp [decVal, toByte_val_digit u hu]
  | succ k ih =>
    by_cases hu : u ≥ 10
    · have hlt : u / 10 < 10 ^ (k + 1) := by
        rw [Nat.div_lt_iff_lt_mul (by decide)]
        calc u < 10 ^ (k + 1 + 1) := h
          _ = 10 ^ (k + 1) * 10 := by ring
      obtain ⟨d, ds, e, hd, hv⟩ := ih (u / 10) (toByte (48 + u - u / 10 * 10) :: buf) hlt
      have hb : (toByte (48 + u - u / 10 * 10)).val = 48 + u % 10 := by
        simp only [toByte]; omega
      refine ⟨d, ds ++ [toByte (48 + u - u / 10 * 10)], ?_, ?_, ?_⟩
      · simp only [fmtLoop, if_pos hu, e]; simp
      · rw [← List.cons_append, List.all_append, hd]
        simp [isDigit, hb]; omega
      · rw [← List.cons_append, decVal_append, hv]
        simp only [decVal, hb]; omega
    · have hu : u < 10 := by omega
      refine ⟨toByte (48 + u), [], by simp [fmtLoop, hu], ?_, ?_⟩
      · simp [isDigit, toByte_val_digit u hu]; omega
      · simp [decVal, toByte_val_digit u hu]

theorem fmtD_nonneg (n : Int) (h0 : 0 ≤ n) (h : n < 2 ^ 64) :
    ∃ d ds, fmtD n = d :: ds ∧ (d :: ds).all isDigit = true
      ∧ decVal (d :: ds) 0 = n.toNat := by
  have hu : wrapUint64 n.toNat = n.toNat := by unfold wrapUint64; omega
  obtain ⟨d, ds, e, hd, hv⟩ := fmtLoop_spec 20 n.toNat [] (by norm_num; omega)
  refine ⟨d, ds, ?_, hd, hv⟩
  have hn : ¬ n < 0 := by omega
  simp [fmtD, hn, hu, e]

theorem fmtD_neg (n : Int) (h0 : n < 0) (h : -(2 ^ 64) < n) :
    ∃ d ds, fmtD n = 45 :: d :: ds ∧ (d :: ds).all isDigit = true
      ∧ decVal (d :: ds) 0 = (-n).toNat := by
  have hu : wrapUint64 (-n).toNat = (-n).toNat := by unfold wrapUint64; omega
  obtain ⟨d, ds, e, hd, hv⟩ := fmtLoop_spec 20 (-n).toNat [] (by norm_num; omega)
  refine ⟨d, ds, ?_, hd, hv⟩
  simp [fmtD, h0, hu, e]

theorem Atoi_digits (d : Byte) (ds : GoString) (hd : (d :: ds).all isDigit = true)
    (hb : decVal (d :: ds) 0 < 2 ^ 63) :
    Atoi (d :: ds) = (((decVal (d :: ds) 0 : Nat) : Int), none) := by
  have hd0 : 48 ≤ d.val ∧ d.val ≤ 57 := by
    simp only [List.all_cons, Bool.and_eq_true, isDigit, decide_eq_true_eq] at hd
    exact hd.1
  have h43 : ¬ d.val = 43 := by omega
  have h45 : ¬ d.val = 45 := by omega
  have hfast := atoiFastLoop_digits (d :: ds) 0 hd hb
  have hslow := parseUintLoop_digits (d :: ds) 0 hd (by omega)
  have hw : wrapInt64 ((decVal (d :: ds) 0 : Nat) : Int) = ((decVal (d :: ds) 0 : Nat) : Int) :=
    wrapInt64_of_range (by unfold InInt64; omega)
  by_cases hl : (d :: ds).length < 19
  · simp only [Atoi, if_pos hl, h43, h45]
    simp only [Nat.cast_zero] at hfast
    simp [hfast]
  · simp only [Atoi, if_neg hl, ParseInt, ParseUint, h43, h45]
    have hb2 : ¬ (9223372036854775808 ≤ decVal (d :: ds) 0) := by omega
    simp [hslow, hw, hb2]

theorem Atoi_neg_digits (d : Byte) (ds : GoString) (hd : (d :: ds).all isDigit = true)
    (hb : decVal (d :: ds) 0 < 2 ^ 63) :
    Atoi (45 :: d :: ds) = (-((decVal (d :: ds) 0 : Nat) : Int), none) := by
  have hfast := atoiFastLoop_digits (d :: ds) 0 hd hb
  have hslow := parseUintLoop_digits (d :: ds) 0 hd (by omega)
  have hw : wrapInt64 ((decVal (d :: ds) 0 : Nat) : Int) = ((decVal (d :: ds) 0 : Nat) : Int) :=
    wrapInt64_of_range (by unfold InInt64; omega)
  have hwn : wrapInt64 (-((decVal (d :: ds) 0 : Nat) : Int))
      = -((decVal (d :: ds) 0 : Nat) : Int) :=
    wrapInt64_of_range (by unfold InInt64; omega)
  have v45 : ((45 : Byte) : Nat) = 45 := rfl
  by_cases hl : ((45 : Byte) :: d :: ds).length < 19
  · simp only [Atoi, if_pos hl]
    simp only [Nat.cast_zero] at hfast
    simp [v45, hfast, hwn]
  · simp only [Atoi, if_neg hl, ParseInt, ParseUint]
    have hb2 : ¬ (9223372036854775808 < decVal (d :: ds) 0) := by omega
    simp [v45, hslow, hw, hwn, hb2]

/-- Reading back with `Atoi` what `%d` wrote gives the number again, for
every value of Go `int`. -/
theorem Atoi_fmtD (n : Int) (h : InInt64 n) : Atoi (fmtD n) = (n, none) := by
  unfold InInt64 at h
  by_cases h0 : 0 ≤ n
  · obtain ⟨d, ds, e, hd, hv⟩ := fmtD_nonneg n h0 (by omega)
    rw [e, Atoi_digits d ds hd (by omega), hv]
    simp [Int.toNat_of_nonneg h0]
  · by_cases hmin : n = -(2 ^ 63)
    · subst hmin; decide
    · obtain ⟨d, ds, e, hd, hv⟩ := fmtD_neg n (by omega) (by omega)
      rw [e, Atoi_neg_digits d ds hd (by omega), hv]
      have : (((-n).toNat : Nat) : Int) = -n := Int.toNat_of_nonneg (by omega)
      simp [this]

theorem atoiFastLoop_bad (ds : GoString) (n : Int) (hd : ds.all isDigit = false) :
    atoiFastLoop ds n = none := by
  induction ds generalizing n with
  | nil => simp at hd
  | cons c cs ih =>
    have hc := c.isLt
    by_cases hdc : isDigit c = true
    · have hcs : cs.all isDigit = false := by
        rw [List.all_cons, hdc] at hd; simpa using hd
      simp only [isDigit, Bool.and_eq_true, decide_eq_true_eq] at hdc
      simp only [atoiFastLoop]
      rw [if_neg (by omega)]
      exact ih _ hcs
    · simp only [isDigit, Bool.and_eq_true, decide_eq_true_eq] at hdc
      simp only [atoiFastLoop]
      rw [if_pos (by omega)]

theorem parseUintLoop_range (ds : GoString) (n : Nat)
    (h : (parseUintLoop ds n).2 = some NumError.ErrRange) :
    (parseUintLoop ds n).1 = 2 ^ 64 - 1 := by
  induction ds generalizing n with
  | nil => simp [parseUintLoop] at h
  | cons c cs ih =>
    simp only [parseUintLoop] at h ⊢
    split at h
    · simp at h
    · split_ifs at h ⊢ <;> first | rfl | (simp at h) | exact ih _ h

theorem parseUintLoop_bad (ds : GoString) (n : Nat) (hd : ds.all isDigit = false) :
    (parseUintLoop ds n).2 ≠ none := by
  induction ds generalizing n with
  | nil => simp at hd
  | cons c cs ih =>
    simp only [parseUintLoop]
    split
    · simp
    · rename_i d hdq
      split_ifs with h1 h2 h3
      · simp
      · simp
      · simp
      · apply ih
        by_cases hdc : isDigit c = true
        · rw [List.all_cons, hdc] at hd; simpa using hd
        · exfalso
          simp only [isDigit, Bool.and_eq_true, decide_eq_true_eq] at hdc
          rw [if_neg hdc] at hdq
          split_ifs at hdq with hl
          · simp only [Option.some.injEq] at hdq
            omega
          

theorem ParseUint_range (s : GoString) (h : (ParseUint s).2 = some NumError.ErrRange) :
    (ParseUint s).1 = 2 ^ 64 - 1 := by
  unfold ParseUint at h ⊢
  split_ifs at h ⊢ with h0
  · simp at h
  · exact parseUintLoop_range s 0 h

theorem ParseUint_bad (s : GoString) (h : s = [] ∨ s.all isDigit = false) :
    (ParseUint s).2 ≠ none := by
  unfold ParseUint
  split_ifs with h0
  · simp
  · rcases h with h | h
    · exact absurd h h0
    · exact parseUintLoop_bad s 0 h

theorem ParseInt_of_ParseUint_err (c : Byte) (cs : GoString)
    (h : (ParseUint (if c.val = 43 then cs else if c.val = 45 then cs else c :: cs)).2 ≠ none) :
    (ParseInt (c :: cs)).2 ≠ none := by
  have hr := ParseUint_range (if c.val = 43 then cs else if c.val = 45 then cs else c :: cs)
  simp only [ParseInt]
  generalize ParseUint (if c.val = 43 then cs else if c.val = 45 then cs else c :: cs) = p at h hr
  obtain ⟨un, err⟩ := p
  simp only at h hr ⊢
  cases err with
  | none => exact absurd rfl h
  | some e =>
    cases e with
    | ErrSyntax => simp
    | ErrRange =>
      have hu : un = 2 ^ 64 - 1 := hr rfl
      subst hu
      by_cases hneg : c.val = 45
      · simp [hneg]
      · simp [hneg]

theorem ParseInt_bad (s : GoString) (h : IsIntegerText s = false) :
    (ParseInt s).2 ≠ none := by
  cases s with
  | nil => simp [ParseInt]
  | cons c cs =>
    apply ParseInt_of_ParseUint_err
    apply ParseUint_bad
    simp only [IsIntegerText] at h
    by_cases h43 : c.val = 43
    · simp only [h43, if_true, true_or] at h ⊢
      cases cs with
      | nil => left; rfl
      | cons d ds => right; simpa using h
    · by_cases h45 : c.val = 45
      · simp only [h45, if_true, or_true] at h ⊢
        rw [if_neg (by omega)]
        cases cs with
        | nil => left; rfl
        | cons d ds => right; simpa using h
      · rw [if_neg h43, if_neg h45]
        rw [if_neg (by omega)] at h
        right; exact h

/-- A text that is not an integer in decimal notation is rejected by `Atoi`. -/
theorem Atoi_bad (s : GoString) (h : IsIntegerText s = false) : (Atoi s).2 ≠ none := by
  cases s with
  | nil => simp [Atoi, ParseInt]
  | cons c cs =>
    by_cases hl : (c :: cs).length < 19
    · simp only [Atoi, if_pos hl]
      simp only [IsIntegerText] at h
      by_cases hs : c.val = 43 ∨ c.val = 45
      · have hs2 : c.val = 45 ∨ c.val = 43 := hs.symm
        rw [if_pos hs] at h
        cases cs with
        | nil => simp [hs2]
        | cons d ds =>
          have hb : (d :: ds).all isDigit = false := by simpa using h
          simp [hs2, atoiFastLoop_bad (d :: ds) 0 hb]
      · have hs2 : ¬ (c.val = 45 ∨ c.val = 43) := fun hh => hs hh.symm
        rw [if_neg hs] at h
        simp [hs2, atoiFastLoop_bad (c :: cs) 0 h]
    · simp only [Atoi, if_neg hl]
      exact ParseInt_bad (c :: cs) h

/-! ## `%d` writes the decimal notation -/

theorem digitChar_byte (d : Nat) (h : d < 10) :
    toByte (Nat.digitChar d).toNat = toByte (48 + d) := by
  interval_cases d <;> rfl

theorem toDigitsCore_fmtLoop (F : Nat) : ∀ (f u : Nat) (ds : List Char),
    u < 10 ^ (F + 1) → u < 10 ^ (f + 1) →
    (Nat.toDigitsCore 10 (F + 1) u ds).map (fun c => toByte c.toNat)
      = fmtLoop f u (ds.map (fun c => toByte c.toNat)) := by
  induction F with
  | zero =>
    intro f u ds hF _
    have hu : u < 10 := by simpa using hF
    have e1 : u / 10 = 0 := by omega
    have e2 : u % 10 = u := by omega
    cases f with
    | zero => simp [Nat.toDigitsCore, fmtLoop, e1, e2, digitChar_byte u hu]
    | succ f =>
      have hu2 : ¬ (10 ≤ u) := by omega
      simp [Nat.toDigitsCore, fmtLoop, e1, e2, digitChar_byte u hu, hu2]
  | succ F ih =>
    intro f u ds hF hf
    by_cases hu : u < 10
    · have e1 : u / 10 = 0 := by omega
      have e2 : u % 10 = u := by omega
      cases f with
      | zero => simp [Nat.toDigitsCore, fmtLoop, e1, e2, digitChar_byte u hu]
      | succ f =>
        have hu2 : ¬ (10 ≤ u) := by omega
        simp [Nat.toDigitsCore, fmtLoop, e1, e2, digitChar_byte u hu, hu2]
    · have e1 : ¬ (u / 10 = 0) := by omega
      cases f with
      | zero => simp at hf; omega
      | succ f =>
        have h1 : u / 10 < 10 ^ (F + 1) := by
          rw [Nat.div_lt_iff_lt_mul (by decide)]
          calc u < 10 ^ (F + 1 + 1) := hF
            _ = 10 ^ (F + 1) * 10 := by ring
        have h2 : u / 10 < 10 ^ (f + 1) := by
          rw [Nat.div_lt_iff_lt_mul (by decide)]
          calc u < 10 ^ (f + 1 + 1) := hf
            _ = 10 ^ (f + 1) * 10 := by ring
        have hd : toByte (Nat.digitChar (u % 10)).toNat = toByte (48 + u - u / 10 * 10) := by
          rw [digitChar_byte _ (Nat.mod_lt _ (by decide))]
          congr 1; omega
        have := ih f (u / 10) (Nat.digitChar (u % 10) :: ds) h1 h2
        rw [Nat.toDigitsCore]
        simp only [e1, if_false]
        rw [this]
        simp only [fmtLoop, List.map_cons, hd]
        rw [if_pos (by omega)]

theorem str_repr (u : Nat) (h : u < 10 ^ 21) : str (Nat.repr u) = fmtLoop 20 u [] := by
  have hlt : u < 10 ^ (u + 1) :=
    lt_of_lt_of_le (Nat.lt_pow_self (by decide) u) (Nat.pow_le_pow_right (by decide) (by omega))
  have := toDigitsCore_fmtLoop u 20 u [] hlt h
  simpa [str, Nat.repr, Nat.toDigits, List.asString] using this

/-- What `%d` writes is the decimal notation of the number, for every
number of absolute value below `2^64`. -/
theorem fmtD_eq_decimal (n : Int) (h1 : -(2 ^ 64) < n) (h2 : n < 2 ^ 64) :
    fmtD n = decimal n := by
  cases n with
  | ofNat m =>
    have hm : m < 2 ^ 64 := by simpa using h2
    have hu : wrapUint64 m = m := by unfold wrapUint64; omega
    have hr := str_repr m (by omega)
    have : decimal (Int.ofNat m) = str (Nat.repr m) := rfl
    rw [this, hr]
    have hn : ¬ ((m : Int) < 0) := by omega
    simp [fmtD, hu, hn]
  | negSucc m =>
    have hm : m + 1 < 2 ^ 64 := by
      have : Int.negSucc m = -((m : Int) + 1) := rfl
      omega
    have hu : wrapUint64 (m + 1) = m + 1 := by unfold wrapUint64; omega
    have hr := str_repr (m + 1) (by omega)
    have : decimal (Int.negSucc m) = (45 : Byte) :: str (Nat.repr (m + 1)) := rfl
    rw [this, hr]
    have hneg : Int.negSucc m < 0 := Int.negSucc_lt_zero m
    have hto : (-Int.negSucc m).toNat = m + 1 := by
      have : -Int.negSucc m = ((m + 1 : Nat) : Int) := rfl
      rw [this]; simp
    simp [fmtD, hneg, hto, hu]

/-- `Atoi` reads the decimal notation of every value of Go `int`. -/
theorem Atoi_decimal (n : Int) (h : InInt64 n) : Atoi (decimal n) = (n, none) := by
  have hn := h
  unfold InInt64 at hn
  rw [← fmtD_eq_decimal n (by omega) (by omega)]
  exact Atoi_fmtD n h

theorem wrapInt64_range (x : Int) : InInt64 (wrapInt64 x) := by
  unfold InInt64 wrapInt64
  omega

theorem fmtD_wrapInt64 (x : Int) : fmtD (wrapInt64 x) = decimal (wrapInt64 x) := by
  have h := wrapInt64_range x
  unfold InInt64 at h
  exact fmtD_eq_decimal _ (by omega) (by omega)

theorem atoiFastLoop_range (ds : GoString) (n0 n : Int) (h0 : InInt64 n0)
    (h : atoiFastLoop ds n0 = some n) : InInt64 n := by
  induction ds generalizing n0 with
  | nil =>
    simp only [atoiFastLoop, Option.some.injEq] at h
    exact h ▸ h0
  | cons c cs ih =>
    simp only [atoiFastLoop] at h
    split_ifs at h
    exact ih _ (wrapInt64_range _) h

/-- Whatever `Atoi` returns is a value of Go `int`. -/
theorem Atoi_range (s : GoString) : InInt64 (Atoi s).1 := by
  have h00 : InInt64 0 := by decide
  cases s with
  | nil => simp only [Atoi]; exact wrapInt64_range _
  | cons c cs =>
    simp only [Atoi]
    by_cases hl : (c :: cs).length < 19
    · rw [if_pos hl]
      generalize (if (decide (c.val = 45 ∨ c.val = 43)) = true then cs else c :: cs) = s1
      by_cases hg : (decide (c.val = 45 ∨ c.val = 43) = true ∧ s1.length < 1)
      · rw [if_pos hg]; exact h00
      · rw [if_neg hg]
        cases hfl : atoiFastLoop s1 0 with
        | none => exact h00
        | some n =>
          have hr := atoiFastLoop_range _ 0 n h00 hfl
          by_cases h45 : c.val = 45
          · simp only [h45, if_true]; exact wrapInt64_range _
          · simp only [h45, if_false]; exact hr
    · rw [if_neg hl]; exact wrapInt64_range _

/-! ## The handlers: the state they leave -/

theorem updateSpan_length (f : Span → Span) (l : List Span) (sp : Span) (rest : List Span) :
    updateSpan f l.length (l ++ sp :: rest) = l ++ f sp :: rest := by
  induction l with
  | nil => simp [updateSpan]
  | cons x xs ih => simp [updateSpan, ih]

/-- The state `helloHandler` leaves. -/
theorem helloHandler_state (r : Request) (s : State) :
    helloHandler r s =
      { w := s.w.Write (str "Hello, World!")
        spans := s.spans ++ [{ name := str "helloHandler",
                               events := [str "Handled /hello request"], endCalls := 1 }]
        counter := s.counter
        logs := s.logs ++ [str "Handled /hello request"]
        trace := s.trace ++ [Effect.spanStart s.spans.length (str "helloHandler"),
                             Effect.write (str "Hello, World!"),
                             Effect.log (str "Handled /hello request"),
                             Effect.spanAddEvent s.spans.length (str "Handled /hello request"),
                             Effect.spanEnd s.spans.length] } := by
  simp [helloHandler, tracerStart, Fprintf, logPrint, spanAddEvent, spanEnd, updateSpan_length,
    Span.ended]

/-- The state `sumHandler` leaves when both parameters parse. -/
theorem sumHandler_ok (r : Request) (s : State) (a b : Int)
    (h1 : Atoi (r.query.Get (str "num1")) = (a, none))
    (h2 : Atoi (r.query.Get (str "num2")) = (b, none)) :
    sumHandler r s =
      { w := s.w.Write (str "Sum: " ++ fmtD (wrapInt64 (a + b)))
        spans := s.spans ++ [{ name := str "sumHandler",
                               events := [sumLine a b (wrapInt64 (a + b))], endCalls := 1 }]
        counter := s.counter
        logs := s.logs ++ [sumLine a b (wrapInt64 (a + b))]
        trace := s.trace ++ [Effect.spanStart s.spans.length (str "sumHandler"),
                             Effect.write (str "Sum: " ++ fmtD (wrapInt64 (a + b))),
                             Effect.log (sumLine a b (wrapInt64 (a + b))),
                             Effect.spanAddEvent s.spans.length (sumLine a b (wrapInt64 (a + b))),
                             Effect.spanEnd s.spans.length] } := by
  simp [sumHandler, h1, h2, sumLine, tracerStart, Fprintf, logPrint, spanAddEvent, spanEnd,
    updateSpan_length, Span.ended]

/-- The state `sumHandler` leaves when a parameter does not parse. -/
theorem sumHandler_err (r : Request) (s : State)
    (h : (Atoi (r.query.Get (str "num1"))).2 ≠ none ∨ (Atoi (r.query.Get (str "num2"))).2 ≠ none) :
    sumHandler r s =
      { w := (s.w.WriteHeader 400).Write (str "Invalid input" ++ [10])
        spans := s.spans ++ [{ name := str "sumHandler", events := [], endCalls := 1 }]
        counter := s.counter
        logs := s.logs
        trace := s.trace ++ [Effect.spanStart s.spans.length (str "sumHandler"),
                             Effect.writeHeader 400,
                             Effect.write (str "Invalid input" ++ [10]),
                             Effect.spanEnd s.spans.length] } := by
  simp only [sumHandler]
  rw [if_pos h]
  simp [tracerStart, httpError, spanEnd, updateSpan_length]

/-- The state `subtractHandler` leaves when both parameters parse. -/
theorem subtractHandler_ok (r : Request) (s : State) (a b : Int)
    (h1 : Atoi (r.query.Get (str "num1")) = (a, none))
    (h2 : Atoi (r.query.Get (str "num2")) = (b, none)) :
    subtractHandler r s =
      { w := s.w.Write (str "Subtraction: " ++ fmtD (wrapInt64 (a - b)))
        spans := s.spans ++ [{ name := str "subtractHandler",
                               events := [subtractLine a b (wrapInt64 (a - b))], endCalls := 1 }]
        counter := s.counter
        logs := s.logs ++ [subtractLine a b (wrapInt64 (a - b))]
        trace := s.trace ++ [Effect.spanStart s.spans.length (str "subtractHandler"),
                             Effect.write (str "Subtraction: " ++ fmtD (wrapInt64 (a - b))),
                             Effect.log (subtractLine a b (wrapInt64 (a - b))),
                             Effect.spanAddEvent s.spans.length (subtractLine a b (wrapInt64 (a - b))),
                             Effect.spanEnd s.spans.length] } := by
  simp [subtractHandler, h1, h2, subtractLine, tracerStart, Fprintf, logPrint, spanAddEvent, spanEnd,
    updateSpan_length, Span.ended]

/-- The state `subtractHandler` leaves when a parameter does not parse. -/
theorem subtractHandler_err (r : Request) (s : State)
    (h : (Atoi (r.query.Get (str "num1"))).2 ≠ none ∨ (Atoi (r.query.Get (str "num2"))).2 ≠ none) :
    subtractHandler r s =
      { w := (s.w.WriteHeader 400).Write (str "Invalid input" ++ [10])
        spans := s.spans ++ [{ name := str "subtractHandler", events := [], endCalls := 1 }]
        counter := s.counter
        logs := s.logs
        trace := s.trace ++ [Effect.spanStart s.spans.length (str "subtractHandler"),
                             Effect.writeHeader 400,
                             Effect.write (str "Invalid input" ++ [10]),
                             Effect.spanEnd s.spans.length] } := by
  simp only [subtractHandler]
  rw [if_pos h]
  simp [tracerStart, httpError, spanEnd, updateSpan_length]
/-! ## The arithmetic handlers: replies -/

theorem Write_new (b : GoString) : newResponseWriter.Write b = reply 200 b := by
  simp [ResponseWriter.Write, ResponseWriter.WriteHeader, newResponseWriter, reply]

theorem Error_new (msg : GoString) (code : Nat) :
    (newResponseWriter.WriteHeader code).Write msg = reply code msg := by
  simp [ResponseWriter.Write, ResponseWriter.WriteHeader, newResponseWriter, reply]

theorem BadParam_iff (r : Request) (key : GoString) :
    BadParam r key ↔ IsIntegerText (r.query.Get key) = false := by
  constructor
  · rintro (h | h)
    · simp only [Values.Has] at h
      have : r.query.lookup key = none := by simpa using h
      simp [Values.Get, this, IsIntegerText]
    · exact h
  · exact fun h => Or.inr h

theorem Atoi_of_BadParam (r : Request) (key : GoString) (h : BadParam r key) :
    (Atoi (r.query.Get key)).2 ≠ none :=
  Atoi_bad _ ((BadParam_iff r key).1 h)

/-- The reply of `/sum` to the decimal notations of two values of Go `int`:
the wrapped sum. -/
theorem sumHandler_decimal (a b : Int) (r : Request) (s : State)
    (ha : InInt64 a) (hb : InInt64 b)
    (h1 : r.query.Get (str "num1") = decimal a) (h2 : r.query.Get (str "num2") = decimal b)
    (hw : s.w = newResponseWriter) :
    (sumHandler r s).w = reply 200 (str "Sum: " ++ decimal (wrapInt64 (a + b))) := by
  rw [sumHandler_ok r s a b (by rw [h1]; exact Atoi_decimal a ha)
    (by rw [h2]; exact Atoi_decimal b hb)]
  simp only [hw, Write_new, fmtD_wrapInt64]

/-- The reply of `/subtract` to the decimal notations of two values of Go
`int`: the wrapped difference. -/
theorem subtractHandler_decimal (a b : Int) (r : Request) (s : State)
    (ha : InInt64 a) (hb : InInt64 b)
    (h1 : r.query.Get (str "num1") = decimal a) (h2 : r.query.Get (str "num2") = decimal b)
    (hw : s.w = newResponseWriter) :
    (subtractHandler r s).w = reply 200 (str "Subtraction: " ++ decimal (wrapInt64 (a - b))) := by
  rw [subtractHandler_ok r s a b (by rw [h1]; exact Atoi_decimal a ha)
    (by rw [h2]; exact Atoi_decimal b hb)]
  simp only [hw, Write_new, fmtD_wrapInt64]

/-! ## C1: `/sum` -/

/-- C1, as amended: for all integers `a` and `b` that are values of Go `int`
and whose sum `a + b` is a value of Go `int` too, `sumHandler` answers a
request whose `num1` and `num2` are the decimal notations of `a` and `b` with
status 200 and the body `Sum: ` followed by the decimal notation of `a + b`. -/
theorem C1_sum_of_representable_sum (a b : Int) (r : Request) (s : State)
    (ha : InInt64 a) (hb : InInt64 b) (hab : InInt64 (a + b))
    (h1 : r.query.Get (str "num1") = decimal a) (h2 : r.query.Get (str "num2") = decimal b)
    (hw : s.w = newResponseWriter) :
    (sumHandler r s).w = reply 200 (str "Sum: " ++ decimal (a + b)) := by
  rw [sumHandler_decimal a b r s ha hb h1 h2 hw, wrapInt64_of_range hab]

/-- C1, witness: `GET /sum?num1=3&num2=4` is answered `200`, `Sum: 7`. -/
theorem C1_sum_witness :
    InInt64 3 ∧ InInt64 4 ∧ InInt64 (3 + 4)
    ∧ (sumHandler (arithRequest (str "/sum") (str "3") (str "4")) emptyState).w
        = reply 200 (str "Sum: " ++ decimal (3 + 4))
    ∧ str "Sum: " ++ decimal (3 + 4) = str "Sum: 7" :=
  ⟨by decide, by decide, by decide,
   C1_sum_of_representable_sum 3 4 (arithRequest (str "/sum") (str "3") (str "4")) emptyState
     (by decide) (by decide) (by decide) (by decide) (by decide) rfl,
   by decide⟩

/-- C1, as stated, fails: `9223372036854775807` and `1` are values of Go
`int`, and `/sum` answers with the body `Sum: -9223372036854775808`, which is
not `Sum: ` followed by the decimal notation of their sum. -/
theorem C1_counterexample :
    InInt64 9223372036854775807 ∧ InInt64 1
    ∧ (arithRequest (str "/sum") (decimal 9223372036854775807) (decimal 1)).query.Get (str "num1")
        = decimal 9223372036854775807
    ∧ (arithRequest (str "/sum") (decimal 9223372036854775807) (decimal 1)).query.Get (str "num2")
        = decimal 1
    ∧ (sumHandler (arithRequest (str "/sum") (decimal 9223372036854775807) (decimal 1))
        emptyState).w = reply 200 (str "Sum: -9223372036854775808")
    ∧ (sumHandler (arithRequest (str "/sum") (decimal 9223372036854775807) (decimal 1))
        emptyState).w ≠ reply 200 (str "Sum: " ++ decimal (9223372036854775807 + 1)) := by
  decide
/-! ## C2: `/subtract` -/

/-- C2, as amended: for all integers `a` and `b` that are values of Go `int`
and whose difference `a - b` is a value of Go `int` too, `subtractHandler`
answers a request whose `num1` and `num2` are the decimal notations of `a` and
`b` with status 200 and the body `Subtraction: ` followed by the decimal
notation of `a - b`. -/
theorem C2_subtract_of_representable_difference (a b : Int) (r : Request) (s : State)
    (ha : InInt64 a) (hb : InInt64 b) (hab : InInt64 (a - b))
    (h1 : r.query.Get (str "num1") = decimal a) (h2 : r.query.Get (str "num2") = decimal b)
    (hw : s.w = newResponseWriter) :
    (subtractHandler r s).w = reply 200 (str "Subtraction: " ++ decimal (a - b)) := by
  rw [subtractHandler_decimal a b r s ha hb h1 h2 hw, wrapInt64_of_range hab]

/-- C2, witness: `GET /subtract?num1=10&num2=4` is answered `200`,
`Subtraction: 6`. -/
theorem C2_subtract_witness :
    InInt64 10 ∧ InInt64 4 ∧ InInt64 (10 - 4)
    ∧ (subtractHandler (arithRequest (str "/subtract") (str "10") (str "4")) emptyState).w
        = reply 200 (str "Subtraction: " ++ decimal (10 - 4))
    ∧ str "Subtraction: " ++ decimal (10 - 4) = str "Subtraction: 6" :=
  ⟨by decide, by decide, by decide,
   C2_subtract_of_representable_difference 10 4
     (arithRequest (str "/subtract") (str "10") (str "4")) emptyState
     (by decide) (by decide) (by decide) (by decide) (by decide) rfl,
   by decide⟩

/-- C2, as stated, fails. For `a = 9223372036854775808` and `b = 0` the
request with their decimal notations is answered 400; for
`a = -9223372036854775808` and `b = 1` it is answered
`Subtraction: 9223372036854775807`, which is not the decimal notation of
`a - b`. -/
theorem C2_counterexample :
    ((arithRequest (str "/subtract") (decimal 9223372036854775808) (decimal 0)).query.Get
        (str "num1") = decimal 9223372036854775808
      ∧ (arithRequest (str "/subtract") (decimal 9223372036854775808) (decimal 0)).query.Get
        (str "num2") = decimal 0
      ∧ (subtractHandler (arithRequest (str "/subtract") (decimal 9223372036854775808) (decimal 0))
          emptyState).w = reply 400 (str "Invalid input\n")
      ∧ (subtractHandler (arithRequest (str "/subtract") (decimal 9223372036854775808) (decimal 0))
          emptyState).w ≠ reply 200 (str "Subtraction: " ++ decimal (9223372036854775808 - 0)))
    ∧ (InInt64 (-9223372036854775808) ∧ InInt64 1
      ∧ (subtractHandler (arithRequest (str "/subtract") (decimal (-9223372036854775808))
          (decimal 1)) emptyState).w = reply 200 (str "Subtraction: 9223372036854775807")
      ∧ (subtractHandler (arithRequest (str "/subtract") (decimal (-9223372036854775808))
          (decimal 1)) emptyState).w
          ≠ reply 200 (str "Subtraction: " ++ decimal (-9223372036854775808 - 1))) := by
  decide

/-! ## C3: invalid input -/

/-- C3, as amended: when `num1` or `num2` is missing or is not an integer in
decimal notation, `sumHandler` and `subtractHandler` answer with status 400
and the body `Invalid input` followed by a line feed, and what they write to
the response is that header and that text only. -/
theorem C3_invalid_input (r : Request) (s : State) (hw : s.w = newResponseWriter)
    (h : BadParam r (str "num1") ∨ BadParam r (str "num2")) :
    (sumHandler r s).w = reply 400 (str "Invalid input\n")
    ∧ (sumHandler r s).trace = s.trace ++
        [Effect.spanStart s.spans.length (str "sumHandler"), Effect.writeHeader 400,
         Effect.write (str "Invalid input\n"), Effect.spanEnd s.spans.length]
    ∧ (subtractHandler r s).w = reply 400 (str "Invalid input\n")
    ∧ (subtractHandler r s).trace = s.trace ++
        [Effect.spanStart s.spans.length (str "subtractHandler"), Effect.writeHeader 400,
         Effect.write (str "Invalid input\n"), Effect.spanEnd s.spans.length] := by
  have he : (Atoi (r.query.Get (str "num1"))).2 ≠ none
      ∨ (Atoi (r.query.Get (str "num2"))).2 ≠ none :=
    h.imp (Atoi_of_BadParam r _) (Atoi_of_BadParam r _)
  have e : str "Invalid input" ++ [10] = str "Invalid input\n" := by decide
  rw [sumHandler_err r s he, subtractHandler_err r s he]
  simp [hw, Error_new, e]

/-- C3, witness: `GET /sum?num1=3`, where `num2` is missing. -/
theorem C3_invalid_input_witness :
    (emptyState.w = newResponseWriter
      ∧ (BadParam (num1OnlyRequest (str "/sum") (str "3")) (str "num1")
          ∨ BadParam (num1OnlyRequest (str "/sum") (str "3")) (str "num2")))
    ∧ (sumHandler (num1OnlyRequest (str "/sum") (str "3")) emptyState).w
        = reply 400 (str "Invalid input\n") :=
  ⟨⟨rfl, by decide⟩,
   (C3_invalid_input (num1OnlyRequest (str "/sum") (str "3")) emptyState rfl (by decide)).1⟩

/-- C3, as stated, fails: `GET /sum?num1=abc&num2=4` is answered with status
400 and a body that is not exactly `Invalid input`, a line feed follows the
text. -/
theorem C3_counterexample :
    BadParam (arithRequest (str "/sum") (str "abc") (str "4")) (str "num1")
    ∧ (sumHandler (arithRequest (str "/sum") (str "abc") (str "4")) emptyState).w.status = 400
    ∧ (sumHandler (arithRequest (str "/sum") (str "abc") (str "4")) emptyState).w.body
        = str "Invalid input\n"
    ∧ (sumHandler (arithRequest (str "/sum") (str "abc") (str "4")) emptyState).w.body
        ≠ str "Invalid input" := by
  decide

/-! ## C10: 64-bit arithmetic -/

/-- C10, as amended: for all `a` and `b` in `[-2^63, 2^63-1]` given in
decimal notation, `/sum` answers 200 with `((a+b+2^63) mod 2^64) - 2^63` and
`/subtract` answers 200 with `((a-b+2^63) mod 2^64) - 2^63`, never 400. The
number in the body is the true result exactly when that lies in
`[-2^63, 2^63-1]`. Otherwise it is a wrapped value of opposite sign (negative
when the true result is too large, positive when it is too small), with one
exception: on `/sum` with `a = b = -2^63` the wrapped value is 0. -/
theorem C10_wraparound (a b : Int) (r : Request) (s : State)
    (ha : InInt64 a) (hb : InInt64 b)
    (h1 : r.query.Get (str "num1") = decimal a) (h2 : r.query.Get (str "num2") = decimal b)
    (hw : s.w = newResponseWriter) :
    ((sumHandler r s).w
        = reply 200 (str "Sum: " ++ decimal ((a + b + 2 ^ 63) % 2 ^ 64 - 2 ^ 63))
      ∧ (subtractHandler r s).w
        = reply 200 (str "Subtraction: " ++ decimal ((a - b + 2 ^ 63) % 2 ^ 64 - 2 ^ 63)))
    ∧ (((a + b + 2 ^ 63) % 2 ^ 64 - 2 ^ 63 = a + b ↔ InInt64 (a + b))
      ∧ (2 ^ 63 - 1 < a + b → (a + b + 2 ^ 63) % 2 ^ 64 - 2 ^ 63 < 0)
      ∧ (a + b < -(2 ^ 63) → ¬(a = -(2 ^ 63) ∧ b = -(2 ^ 63)) →
          0 < (a + b + 2 ^ 63) % 2 ^ 64 - 2 ^ 63)
      ∧ (a = -(2 ^ 63) ∧ b = -(2 ^ 63) → (a + b + 2 ^ 63) % 2 ^ 64 - 2 ^ 63 = 0))
    ∧ (((a - b + 2 ^ 63) % 2 ^ 64 - 2 ^ 63 = a - b ↔ InInt64 (a - b))
      ∧ (2 ^ 63 - 1 < a - b → (a - b + 2 ^ 63) % 2 ^ 64 - 2 ^ 63 < 0)
      ∧ (a - b < -(2 ^ 63) → 0 < (a - b + 2 ^ 63) % 2 ^ 64 - 2 ^ 63)) := by
  refine ⟨⟨sumHandler_decimal a b r s ha hb h1 h2 hw,
    subtractHandler_decimal a b r s ha hb h1 h2 hw⟩, ?_, ?_⟩
  · unfold InInt64 at *
    refine ⟨⟨fun h => by omega, fun h => by omega⟩, fun h => by omega,
      fun h hne => by omega, fun h => by omega⟩
  · unfold InInt64 at *
    refine ⟨⟨fun h => by omega, fun h => by omega⟩, fun h => by omega, fun h => by omega⟩

/-- C10, as stated, fails: `-9223372036854775808` is a value of Go `int`, the
sum of it with itself is below `-2^63`, and `/sum` answers the request with
`num1 = num2 = -9223372036854775808` with 200 and `Sum: 0`; the wrapped value
is 0, not a value of opposite sign to the negative true result. -/
theorem C10_counterexample :
    InInt64 (-9223372036854775808)
    ∧ (arithRequest (str "/sum") (decimal (-9223372036854775808))
        (decimal (-9223372036854775808))).query.Get (str "num1") = decimal (-9223372036854775808)
    ∧ (arithRequest (str "/sum") (decimal (-9223372036854775808))
        (decimal (-9223372036854775808))).query.Get (str "num2") = decimal (-9223372036854775808)
    ∧ (-9223372036854775808 : Int) + -9223372036854775808 < -(2 ^ 63)
    ∧ (sumHandler (arithRequest (str "/sum") (decimal (-9223372036854775808))
        (decimal (-9223372036854775808))) emptyState).w = reply 200 (str "Sum: 0")
    ∧ ((-9223372036854775808 : Int) + -9223372036854775808 + 2 ^ 63) % 2 ^ 64 - 2 ^ 63 = 0
    ∧ ¬ (0 < ((-9223372036854775808 : Int) + -9223372036854775808 + 2 ^ 63) % 2 ^ 64
          - 2 ^ 63) := by
  decide

/-- C10, witness: `num1=9223372036854775807`, `num2=1` on `/sum` gives
`Sum: -9223372036854775808`. -/
theorem C10_wraparound_witness :
    (InInt64 9223372036854775807 ∧ InInt64 1)
    ∧ (sumHandler (arithRequest (str "/sum") (str "9223372036854775807") (str "1")) emptyState).w
        = reply 200 (str "Sum: "
            ++ decimal ((9223372036854775807 + 1 + 2 ^ 63) % 2 ^ 64 - 2 ^ 63))
    ∧ str "Sum: " ++ decimal ((9223372036854775807 + 1 + 2 ^ 63) % 2 ^ 64 - 2 ^ 63)
        = str "Sum: -9223372036854775808" :=
  ⟨⟨by decide, by decide⟩,
   (C10_wraparound 9223372036854775807 1
     (arithRequest (str "/sum") (str "9223372036854775807") (str "1")) emptyState
     (by decide) (by decide) (by decide) (by decide) rfl).1.1,
   by decide⟩
/-! ## C4: `/hello` -/

theorem route_hello : route (str "/hello") = some HandlerId.hello := by decide

/-- C4: `helloHandler` answers every request with status 200 and the body
`Hello, World!`, also when it is reached through the mux and the wrapper of
`main`; two requests with the same path and different queries leave the same
state, the same reply included. -/
theorem C4_hello (path : GoString) (q q2 : Values) (s : State) :
    (helloHandler { path := path, query := q } { s with w := newResponseWriter }).w
        = reply 200 (str "Hello, World!")
    ∧ (serveHTTP { path := str "/hello", query := q } s).w = reply 200 (str "Hello, World!")
    ∧ helloHandler { path := path, query := q } s = helloHandler { path := path, query := q2 } s
    ∧ serveHTTP { path := str "/hello", query := q } s
        = serveHTTP { path := str "/hello", query := q2 } s := by
  refine ⟨?_, ?_, ?_, ?_⟩
  · rw [helloHandler_state]; exact Write_new _
  · simp only [serveHTTP, route_hello, HandlerId.handler, helloHandlerWithTelemetry,
      otelhttpNewHandler, helloHandler_state, tracerStart, counterAdd, spanEnd]
    exact Write_new _
  · rw [helloHandler_state, helloHandler_state]
  · simp only [serveHTTP, route_hello, HandlerId.handler, helloHandlerWithTelemetry,
      otelhttpNewHandler, helloHandler_state]

/-! ## C6: the event of the span -/

/-- C6: when both parameters parse, to `a` and `b`, the span of the request
gets exactly one event, `Handled /sum request: a + b = r` (for `/subtract`:
`Handled /subtract request: a - b = r`), where `r` is the number written in
the body of the reply; when a parameter does not parse, the span gets no
event. -/
theorem C6_span_event (r : Request) (s : State) (hw : s.w = newResponseWriter) :
    (∀ a b : Int, Atoi (r.query.Get (str "num1")) = (a, none) →
        Atoi (r.query.Get (str "num2")) = (b, none) →
        ((sumHandler r s).w.body = str "Sum: " ++ decimal (wrapInt64 (a + b))
          ∧ (sumHandler r s).spans = s.spans ++ [endedSpan (str "sumHandler")
              ([str "Handled /sum request: " ++ decimal a ++ str " + " ++ decimal b
                ++ str " = " ++ decimal (wrapInt64 (a + b))])])
        ∧ ((subtractHandler r s).w.body = str "Subtraction: " ++ decimal (wrapInt64 (a - b))
          ∧ (subtractHandler r s).spans = s.spans ++ [endedSpan (str "subtractHandler")
              ([str "Handled /subtract request: " ++ decimal a ++ str " - " ++ decimal b
                ++ str " = " ++ decimal (wrapInt64 (a - b))])]))
    ∧ ((Atoi (r.query.Get (str "num1"))).2 ≠ none ∨ (Atoi (r.query.Get (str "num2"))).2 ≠ none →
        (sumHandler r s).spans
          = s.spans ++ [endedSpan (str "sumHandler") []]
        ∧ (subtractHandler r s).spans
          = s.spans ++ [endedSpan (str "subtractHandler") []]) := by
  constructor
  · intro a b h1 h2
    have ha : InInt64 a := by have := Atoi_range (r.query.Get (str "num1")); rwa [h1] at this
    have hb : InInt64 b := by have := Atoi_range (r.query.Get (str "num2")); rwa [h2] at this
    have ea : fmtD a = decimal a := by
      unfold InInt64 at ha; exact fmtD_eq_decimal a (by omega) (by omega)
    have eb : fmtD b = decimal b := by
      unfold InInt64 at hb; exact fmtD_eq_decimal b (by omega) (by omega)
    rw [sumHandler_ok r s a b h1 h2, subtractHandler_ok r s a b h1 h2]
    simp [hw, Write_new, reply, sumLine, subtractLine, fmtD_wrapInt64, ea, eb, endedSpan]
  · intro h
    rw [sumHandler_err r s h, subtractHandler_err r s h]
    exact ⟨rfl, rfl⟩

/-- C6, witness: `GET /sum?num1=3&num2=4` adds the event
`Handled /sum request: 3 + 4 = 7`; `GET /sum?num1=abc&num2=4` adds none. -/
theorem C6_span_event_witness :
    emptyState.w = newResponseWriter
    ∧ (sumHandler (arithRequest (str "/sum") (str "3") (str "4")) emptyState).spans
        = emptyState.spans ++ [endedSpan (str "sumHandler")
              ([str "Handled /sum request: " ++ decimal 3 ++ str " + " ++ decimal 4
              ++ str " = " ++ decimal (wrapInt64 (3 + 4))])]
    ∧ str "Handled /sum request: " ++ decimal 3 ++ str " + " ++ decimal 4
        ++ str " = " ++ decimal (wrapInt64 (3 + 4)) = str "Handled /sum request: 3 + 4 = 7"
    ∧ (sumHandler (arithRequest (str "/sum") (str "abc") (str "4")) emptyState).spans
        = emptyState.spans ++ [endedSpan (str "sumHandler") []] :=
  ⟨rfl,
   (((C6_span_event (arithRequest (str "/sum") (str "3") (str "4")) emptyState rfl).1 3 4
      (by decide) (by decide)).1).2,
   by decide,
   ((C6_span_event (arithRequest (str "/sum") (str "abc") (str "4")) emptyState rfl).2
      (Or.inl (by decide))).1⟩
/-! ## C9 and C5: spans and the request counter -/

theorem Atoi_eta (x : GoString) (h : (Atoi x).2 = none) : Atoi x = ((Atoi x).1, none) := by
  rw [← h]

/-- What every handler does, whatever the request: it starts its span, runs
its logic, ends the span, and leaves the counter alone. -/
theorem inner_shape (h : HandlerId) (r : Request) (s : State) :
    ∃ (w : ResponseWriter) (evs lg : List GoString) (eff : List Effect),
      h.inner r s =
        { w := w
          spans := s.spans ++ [endedSpan h.spanName evs]
          counter := s.counter
          logs := s.logs ++ lg
          trace := s.trace ++ Effect.spanStart s.spans.length h.spanName
            :: (eff ++ [Effect.spanEnd s.spans.length]) }
      ∧ eff.all (Effect.isLogic s.spans.length) = true
      ∧ (s.w = newResponseWriter → w.wroteHeader = true ∧ (w.status = 200 ∨ w.status = 400)) := by
  cases h with
  | hello =>
    refine ⟨s.w.Write (str "Hello, World!"),
      [str "Handled /hello request"], [str "Handled /hello request"],
      [Effect.write (str "Hello, World!"), Effect.log (str "Handled /hello request"),
       Effect.spanAddEvent s.spans.length (str "Handled /hello request")], ?_, ?_, ?_⟩
    · simp only [HandlerId.inner, HandlerId.spanName, helloHandler_state, endedSpan]
      simp
    · simp [Effect.isLogic]
    · intro hw; rw [hw, Write_new]; simp [reply]
  | sum =>
    by_cases he : (Atoi (r.query.Get (str "num1"))).2 ≠ none
        ∨ (Atoi (r.query.Get (str "num2"))).2 ≠ none
    · refine ⟨(s.w.WriteHeader 400).Write (str "Invalid input" ++ [10]), [], [],
        [Effect.writeHeader 400, Effect.write (str "Invalid input" ++ [10])], ?_, ?_, ?_⟩
      · simp only [HandlerId.inner, HandlerId.spanName, sumHandler_err r s he, endedSpan]
        simp
      · simp [Effect.isLogic]
      · intro hw; rw [hw, Error_new]; simp [reply]
    · have h1 := Atoi_eta _ (by by_contra hc; exact he (Or.inl hc))
      have h2 := Atoi_eta _ (by by_contra hc; exact he (Or.inr hc))
      generalize (Atoi (r.query.Get (str "num1"))).1 = a at h1
      generalize (Atoi (r.query.Get (str "num2"))).1 = b at h2
      refine ⟨s.w.Write (str "Sum: " ++ fmtD (wrapInt64 (a + b))),
        [sumLine a b (wrapInt64 (a + b))], [sumLine a b (wrapInt64 (a + b))],
        [Effect.write (str "Sum: " ++ fmtD (wrapInt64 (a + b))),
         Effect.log (sumLine a b (wrapInt64 (a + b))),
         Effect.spanAddEvent s.spans.length (sumLine a b (wrapInt64 (a + b)))], ?_, ?_, ?_⟩
      · simp only [HandlerId.inner, HandlerId.spanName, sumHandler_ok r s _ _ h1 h2, endedSpan]
        simp
      · simp [Effect.isLogic]
      · intro hw; rw [hw, Write_new]; simp [reply]
  | subtract =>
    by_cases he : (Atoi (r.query.Get (str "num1"))).2 ≠ none
        ∨ (Atoi (r.query.Get (str "num2"))).2 ≠ none
    · refine ⟨(s.w.WriteHeader 400).Write (str "Invalid input" ++ [10]), [], [],
        [Effect.writeHeader 400, Effect.write (str "Invalid input" ++ [10])], ?_, ?_, ?_⟩
      · simp only [HandlerId.inner, HandlerId.spanName, subtractHandler_err r s he, endedSpan]
        simp
      · simp [Effect.isLogic]
      · intro hw; rw [hw, Error_new]; simp [reply]
    · have h1 := Atoi_eta _ (by by_contra hc; exact he (Or.inl hc))
      have h2 := Atoi_eta _ (by by_contra hc; exact he (Or.inr hc))
      generalize (Atoi (r.query.Get (str "num1"))).1 = a at h1
      generalize (Atoi (r.query.Get (str "num2"))).1 = b at h2
      refine ⟨s.w.Write (str "Subtraction: " ++ fmtD (wrapInt64 (a - b))),
        [subtractLine a b (wrapInt64 (a - b))], [subtractLine a b (wrapInt64 (a - b))],
        [Effect.write (str "Subtraction: " ++ fmtD (wrapInt64 (a - b))),
         Effect.log (subtractLine a b (wrapInt64 (a - b))),
         Effect.spanAddEvent s.spans.length (subtractLine a b (wrapInt64 (a - b)))], ?_, ?_, ?_⟩
      · simp only [HandlerId.inner, HandlerId.spanName, subtractHandler_ok r s _ _ h1 h2,
          endedSpan]
        simp
      · simp [Effect.isLogic]
      · intro hw; rw [hw, Write_new]; simp [reply]

/-- The wrapper of each registration: the span of `otelhttp`, the addition
to the counter, the handler, the end of the span. -/
theorem handler_unfold (h : HandlerId) (r : Request) (s : State) :
    h.handler r s
      = spanEnd s.spans.length (h.inner r (counterAdd 1 (tracerStart h.spanName s).2)) := by
  cases h <;> rfl

theorem inner_discipline (h : HandlerId) (r : Request) (s : State) :
    SpanDiscipline h.spanName s (h.inner r s) := by
  obtain ⟨w, evs, lg, eff, e, hl, _⟩ := inner_shape h r s
  exact ⟨evs, eff, by rw [e], by rw [e], hl⟩

/-- C9: each of the three handlers, on every request and so on the success
path and on the 400 path alike, starts a span with its own name before
anything else, and has called `End` on it exactly once, as its last action,
when it returns; the span is then ended. Served through the wrapper of `main`,
a request leaves two spans of that name, both ended. -/
theorem C9_span_ended_once (r : Request) (s : State) :
    SpanDiscipline (str "helloHandler") s (helloHandler r s)
    ∧ SpanDiscipline (str "sumHandler") s (sumHandler r s)
    ∧ SpanDiscipline (str "subtractHandler") s (subtractHandler r s)
    ∧ ∀ h : HandlerId, ∃ evs : List GoString,
        (h.handler r s).spans = s.spans ++ [endedSpan h.spanName [], endedSpan h.spanName evs]
        ∧ (endedSpan h.spanName []).ended = true ∧ (endedSpan h.spanName evs).ended = true := by
  refine ⟨inner_discipline HandlerId.hello r s, inner_discipline HandlerId.sum r s,
    inner_discipline HandlerId.subtract r s, ?_⟩
  intro h
  obtain ⟨w, evs, lg, eff, e, -, -⟩ :=
    inner_shape h r (counterAdd 1 (tracerStart h.spanName s).2)
  refine ⟨evs, ?_, by simp [endedSpan, Span.ended], by simp [endedSpan, Span.ended]⟩
  rw [handler_unfold, e]
  simp only [spanEnd, counterAdd, tracerStart, List.append_assoc, List.singleton_append,
    updateSpan_length, endedSpan]

theorem serveHTTP_routed (r : Request) (s : State) (h : HandlerId) (hr : route r.path = some h) :
    serveHTTP r s = spanEnd s.spans.length
      (h.inner r (counterAdd 1 (tracerStart h.spanName { s with w := newResponseWriter }).2)) := by
  simp only [serveHTTP, hr, handler_unfold]

theorem serveHTTP_counter (r : Request) (s : State) (hr : (route r.path).isSome = true) :
    (serveHTTP r s).counter = s.counter + 1 := by
  obtain ⟨h, hh⟩ := Option.isSome_iff_exists.1 hr
  obtain ⟨w, evs, lg, eff, e, -, -⟩ :=
    inner_shape h r (counterAdd 1 (tracerStart h.spanName { s with w := newResponseWriter }).2)
  rw [serveHTTP_routed r s h hh, e]
  simp [spanEnd, counterAdd, tracerStart]

theorem serveAll_counter (reqs : List Request) (s : State)
    (hr : ∀ r ∈ reqs, (route r.path).isSome = true) :
    (serveAll reqs s).counter = s.counter + reqs.length := by
  induction reqs generalizing s with
  | nil => simp [serveAll]
  | cons r rs ih =>
    simp only [serveAll]
    rw [ih _ (fun x hx => hr x (List.mem_cons_of_mem _ hx)),
      serveHTTP_counter r s (hr r (List.mem_cons_self _ _))]
    simp only [List.length_cons]
    push_cast
    ring

/-- C5: after a sequence of requests, each routed to one of the three
registered paths, the counter has grown by the number of requests. Each
request adds 1, once: the addition is made right after the wrapper has started
its span, the handler runs from the state in which it has been made and adds
nothing itself, and the request counts whether it is answered 200 or 400. -/
theorem C5_counter_counts_requests (reqs : List Request) (s : State)
    (hr : ∀ r ∈ reqs, (route r.path).isSome = true) :
    (serveAll reqs s).counter = s.counter + reqs.length
    ∧ ∀ r ∈ reqs, ∀ st : State, ∃ (h : HandlerId) (s1 : State) (eff : List Effect),
        route r.path = some h
        ∧ s1.counter = st.counter + 1
        ∧ s1.trace = st.trace ++ [Effect.spanStart st.spans.length h.spanName,
            Effect.counterAdd counterName 1]
        ∧ (h.inner r s1).trace = s1.trace ++ eff
        ∧ eff.all (fun e => !e.isCounterAdd) = true
        ∧ serveHTTP r st = spanEnd st.spans.length (h.inner r s1)
        ∧ (serveHTTP r st).counter = st.counter + 1
        ∧ ((serveHTTP r st).w.status = 200 ∨ (serveHTTP r st).w.status = 400) := by
  refine ⟨serveAll_counter reqs s hr, ?_⟩
  intro r hmem st
  obtain ⟨h, hh⟩ := Option.isSome_iff_exists.1 (hr r hmem)
  obtain ⟨w, evs, lg, eff, e, hl, hst⟩ :=
    inner_shape h r (counterAdd 1 (tracerStart h.spanName { st with w := newResponseWriter }).2)
  refine ⟨h, counterAdd 1 (tracerStart h.spanName { st with w := newResponseWriter }).2,
    Effect.spanStart (st.spans.length + 1) h.spanName
      :: (eff ++ [Effect.spanEnd (st.spans.length + 1)]),
    hh, ?_, ?_, ?_, ?_, serveHTTP_routed r st h hh,
    serveHTTP_counter r st (hr r hmem), ?_⟩
  · simp [counterAdd, tracerStart]
  · simp [counterAdd, tracerStart]
  · rw [e]; simp [counterAdd, tracerStart]
  · simp only [List.all_cons, List.all_append, List.all_nil, Effect.isCounterAdd,
      Bool.not_false, Bool.true_and, Bool.and_true]
    rw [List.all_eq_true] at hl ⊢
    intro x hx
    have := hl x hx
    cases x <;> simp_all [Effect.isLogic, Effect.isCounterAdd]
  · rw [serveHTTP_routed r st h hh, e]
    have := (hst (by simp [counterAdd, tracerStart])).2
    simpa [spanEnd] using this

/-- C5, witness: four requests, one of them answered 400, add 4. -/
theorem C5_counter_witness :
    (∀ r ∈ sampleRequests, (route r.path).isSome = true)
    ∧ (serveAll sampleRequests emptyState).counter = emptyState.counter + sampleRequests.length
    ∧ (serveHTTP (arithRequest (str "/sum") (str "abc") (str "4")) emptyState).w.status = 400
    ∧ (serveHTTP (arithRequest (str "/sum") (str "abc") (str "4")) emptyState).counter = 1 :=
  ⟨by decide, (C5_counter_counts_requests sampleRequests emptyState (by decide)).1,
   by decide, by decide⟩
/-! ## C7 and C8: `main` -/

/-- C7: when the trace exporter or the metric exporter cannot be built, the
init function returns that error and no provider, and `main` logs a line and
exits with status 1, having registered no route and not started the listener;
when both can be built, both init functions return a provider and no error. -/
theorem C7_init_failure_is_fatal (env : Env) (p : Proc) :
    (∀ err : GoString, env.traceExporter = some err →
      (initTracer env p).1 = (none, some err)
      ∧ (main env).events
          = [ProcEvent.log (str "failed to initialize tracer: " ++ err), ProcEvent.exit 1]
      ∧ (main env).exited = some 1)
    ∧ (∀ err : GoString, env.metricExporter = some err →
      (initMeter env p).1 = (none, some err)
      ∧ (env.traceExporter = none → (main env).events
          = [ProcEvent.setTracerProvider,
             ProcEvent.log (str "failed to initialize meter: " ++ err), ProcEvent.exit 1])
      ∧ (main env).exited = some 1
      ∧ (main env).events.any ProcEvent.isLog = true
      ∧ (main env).events.any ProcEvent.isServing = false)
    ∧ (env.traceExporter = none → env.metricExporter = none →
      ∃ tp mp : ProviderHandle, (initTracer env p).1 = (some tp, none)
        ∧ (initMeter env p).1 = (some mp, none)) := by
  refine ⟨?_, ?_, ?_⟩
  · intro err h
    simp [initTracer, main, h, logFatalf, osExit, Proc.emit]
  · intro err h
    cases ht : env.traceExporter with
    | some e => simp [initTracer, initMeter, main, h, ht, logFatalf, osExit, Proc.emit,
        ProcEvent.isLog, ProcEvent.isServing]
    | none => simp [initTracer, initMeter, main, h, ht, logFatalf, osExit, Proc.emit,
        Proc.defer, ProcEvent.isLog, ProcEvent.isServing]
  · intro ht hm
    simp [initTracer, initMeter, ht, hm]

/-- C7, witness: the trace exporter fails; the metric exporter fails; both
succeed. -/
theorem C7_init_failure_witness :
    (main (Env.mk (some (str "no client")) none none none)).exited = some 1
    ∧ (main (Env.mk none (some (str "no client")) none none)).events.any ProcEvent.isServing = false
    ∧ ∃ tp mp : ProviderHandle,
        (initTracer (Env.mk none none none none) (Proc.mk [] [] none)).1
          = (some tp, none)
        ∧ (initMeter (Env.mk none none none none) (Proc.mk [] [] none)).1
          = (some mp, none) :=
  ⟨((C7_init_failure_is_fatal (Env.mk (some (str "no client")) none none none) (Proc.mk [] [] none)).1
      (str "no client") rfl).2.2,
   ((C7_init_failure_is_fatal (Env.mk none (some (str "no client")) none none) (Proc.mk [] [] none)).2.1
      (str "no client") rfl).2.2.2.2,
   (C7_init_failure_is_fatal (Env.mk none none none none) (Proc.mk [] [] none)).2.2
      rfl rfl⟩

/-- C8, what the code does: with both providers initialised, when
`http.ListenAndServe` returns the error `err`, `main` logs it and exits with
status 1 through `log.Fatalf`; the two deferred `Shutdown` calls are still
pending and no `Shutdown` has been invoked. The same holds when the counter
cannot be created. Only a `main` that returns runs them. -/
theorem C8_fatal_exit_skips_shutdown (err : GoString) :
    (main (Env.mk none none none (some err))).events
        = [ProcEvent.setTracerProvider,
           ProcEvent.handle (str "/hello") HandlerId.hello,
           ProcEvent.handle (str "/sum") HandlerId.sum,
           ProcEvent.handle (str "/subtract") HandlerId.subtract,
           ProcEvent.print (str "Server is listening on port 8080...\n"),
           ProcEvent.listenAndServe (str ":8080"),
           ProcEvent.log (str "Could not start server: " ++ err ++ str "\n"),
           ProcEvent.exit 1]
    ∧ (main (Env.mk none none none (some err))).events.any ProcEvent.isShutdown = false
    ∧ (main (Env.mk none none none (some err))).deferred
        = [ProcEvent.shutdown Provider.meter, ProcEvent.shutdown Provider.tracer]
    ∧ (main (Env.mk none none none (some err))).exited = some 1
    ∧ (main (Env.mk none none (some err) none)).events.any ProcEvent.isShutdown = false
    ∧ (main (Env.mk none none (some err) none)).exited = some 1
    ∧ (main (Env.mk none none none none)).events
        = [ProcEvent.setTracerProvider,
           ProcEvent.handle (str "/hello") HandlerId.hello,
           ProcEvent.handle (str "/sum") HandlerId.sum,
           ProcEvent.handle (str "/subtract") HandlerId.subtract,
           ProcEvent.print (str "Server is listening on port 8080...\n"),
           ProcEvent.listenAndServe (str ":8080"),
           ProcEvent.shutdown Provider.meter,
           ProcEvent.shutdown Provider.tracer,
           ProcEvent.exit 0] := by
  simp [main, initTracer, initMeter, logFatalf, osExit, returnFromMain, runDeferred,
    Proc.emit, Proc.defer, ProcEvent.isShutdown]
end GoOtel
